import Mathlib

/-
Verification of the sparki platform driver (platforms/sparki/sparki.go).

The driver talks to a small wheeled robot over a duplex byte stream.  We give
a shallow embedding of the client: the stream is modelled by oracles inside
the `Client` state (a per-write error script, a list of scripted single-byte
read results, a close result, and a completion time for the background
handshake receive), and every operation is a state-passing function returning
an `Out` value that is either a normal return (a Go `error` value plus the
updated client), a nil-dereference abort, or a call that never returns
(a blocked read).  Wire traffic is recorded in an event trace so that claims
about emitted frames and consumed acknowledgment bytes can be stated.
-/

namespace Sparki

/-- Frame terminator byte (myro code ETB = 0x17 from the source constants). -/
def ETB : Nat := 0x17

-- Opcode bytes, named as in the source constant block.
namespace Op

def LCDClear : Nat := 0x30

def LCDDrawPixel : Nat := 0x33

def LCDUpdate : Nat := 0x39

def Motors : Nat := 0x41

def BackwardCM : Nat := 0x42

def ForwardCM : Nat := 0x43

def SetRGBLED : Nat := 0x49

def SetStatusLED : Nat := 0x4A

def Stop : Nat := 0x4B

def NOOP : Nat := 0x5A

def BadCommand : Nat := 0x5B

def Gamepad : Nat := 0x65

def Init : Nat := 0x7A

end Op

/-- Go error values that the modelled flows can return.  `connected` is the
source's `ErrConnected`, `timeout` the handshake-timeout error built in
`Connect`, and `transport`/`closeFail` stand for distinct I/O errors produced
by the underlying stream, told apart by a tag. -/
inductive Err where
  | connected
  | timeout
  | transport (tag : Nat)
  | closeFail (tag : Nat)
deriving DecidableEq, Repr

/-- Runtime aborts: dereferencing the nil connection handle. -/
inductive Panic where
  | nilDeref
deriving DecidableEq, Repr

/-- Observable wire events: a frame written (payload plus terminator, as one
write call), one acknowledgment byte successfully read, and the transport
close call. -/
inductive Ev where
  | write (frame : List Nat)
  | read
  | closeCall
deriving DecidableEq, Repr

/-- The client state.  `connected` is the atomic connection flag, `connection`
records whether a transport handle has been stored (`false` models the nil
handle of a fresh client).  The stream oracles: `writeErr k` is the error
result of the k-th write call, `reads` the scripted results of successive
single-byte reads (an exhausted script models a read that blocks forever),
`closeErr` the close result, and `recvTime` the wall-clock duration of the
background handshake receive.  `nw` counts issued writes, `clock` is the
model wall clock, and `trace` the wire events so far. -/
structure Client where
  firmwareName : String
  protocolVersion : String
  connected : Bool
  connection : Bool
  connectTimeout : Nat
  writeErr : Nat → Option Err
  reads : List (Except Err Nat)
  closeErr : Option Err
  recvTime : Nat
  nw : Nat
  clock : Nat
  trace : List Ev

/-- Outcome of a modelled call: normal return of a value together with the
updated client, a nil-dereference abort, or a call that never returns. -/
inductive Out (α : Type) where
  | ok (a : α) (b : Client)
  | panic (p : Panic)
  | blocked

/-- The returned Go error of a normally returning call. -/
def Out.errOf : Out (Option Err) → Option (Option Err)
  | .ok e _ => some e
  | _ => none

/-- The client after a normally returning call. -/
def Out.stateOf {α : Type} : Out α → Option Client
  | .ok _ b => some b
  | _ => none

/-- The trace after a normally returning call. -/
def Out.traceOf {α : Type} (r : Out α) : Option (List Ev) :=
  r.stateOf.map Client.trace

/-- Go chaining idiom `if err == nil { err = f() }`: continue only while the
accumulated error is nil. -/
def Out.andThen (r : Out (Option Err)) (f : Client → Out (Option Err)) :
    Out (Option Err) :=
  match r with
  | .ok none b => f b
  | r => r

/-- Sequencing that drops the first call's error, as `haltFunctions` does. -/
def Out.ignoring (r : Out (Option Err)) (f : Client → Out (Option Err)) :
    Out (Option Err) :=
  match r with
  | .ok _ b => f b
  | .panic p => .panic p
  | .blocked => .blocked

/-- Model of `b.connection.Write(data)`: a nil handle aborts; otherwise the
write is issued (recorded in the trace) and the scripted result for this
write index is returned. -/
def connWrite (data : List Nat) (b : Client) : Out (Option Err) :=
  if b.connection then
    .ok (b.writeErr b.nw)
      { b with nw := b.nw + 1, trace := b.trace ++ [Ev.write data] }
  else .panic .nilDeref

/-- Model of `b.read(1)` (io.ReadFull of one byte): a nil handle aborts, an
exhausted read script blocks forever, otherwise the next scripted result is
delivered (a successfully read byte is recorded in the trace). -/
def read1 (b : Client) : Out (Except Err Nat) :=
  if b.connection then
    match b.reads with
    | [] => .blocked
    | .ok v :: rest =>
        .ok (.ok v) { b with reads := rest, trace := b.trace ++ [Ev.read] }
    | .error e :: rest => .ok (.error e) { b with reads := rest }
  else .panic .nilDeref

/-- Source `clearSync`: read one byte and return the read's error. -/
def clearSync (b : Client) : Out (Option Err) :=
  match read1 b with
  | .ok (.ok _) b => .ok none b
  | .ok (.error e) b => .ok (some e) b
  | .panic p => .panic p
  | .blocked => .blocked

/-- Source `transmit`: append the terminator to the payload and write the
frame in one write call, returning the write's error. -/
def transmit (data : List Nat) (b : Client) : Out (Option Err) :=
  connWrite (data ++ [ETB]) b

/-- Source `transmitSync`: `err := b.transmit(data); if err == nil
{ b.clearSync() }; return err`.  Note that the source discards the value
returned by `clearSync`, so a failing acknowledgment read does not change
the returned error. -/
def transmitSync (data : List Nat) (b : Client) : Out (Option Err) :=
  match transmit data b with
  | .ok none b =>
    match clearSync b with
    | .ok _ b => .ok none b
    | .panic p => .panic p
    | .blocked => .blocked
  | r => r

/-- Little-endian base-ten digits computed with explicit fuel, so that the
function reduces inside the kernel; with fuel at least n it agrees with
`Nat.digits 10 n`. -/
def digitsLE : Nat → Nat → List Nat
  | _, 0 => []
  | 0, _ + 1 => []
  | fuel + 1, n + 1 => (n + 1) % 10 :: digitsLE fuel ((n + 1) / 10)

/-- Decimal ASCII digits of a natural number, as in Go's strconv.Itoa. -/
def natChars (n : Nat) : List Nat :=
  if n = 0 then [48] else (digitsLE n n).reverse.map (fun d => d + 48)

/-- Source `intCharArray`: strconv.Itoa as byte list, minus sign included. -/
def intCharArray (n : Int) : List Nat :=
  if n < 0 then 45 :: natChars n.natAbs else natChars n.natAbs

/-- Source `uintCharArray`: intCharArray of the value cast to int. -/
def uintCharArray (n : Nat) : List Nat :=
  intCharArray (n : Int)

/-- Least number of decimal fraction digits needed for an exact rendering of
a fraction with denominator `den` (`none` when no power of ten works). -/
def decFracExp (den : Nat) : Option Nat :=
  (List.range (den + 1)).find? (fun k => den ∣ 10 ^ k)

/-- Left-pad an ASCII digit string with zeros up to length `len`. -/
def padZeros (len : Nat) (l : List Nat) : List Nat :=
  List.replicate (len - l.length) 48 ++ l

/-- Source `floatCharArray` (strconv.FormatFloat with format f and
precision -1), modelled over exact rationals: the argument is rendered as its
minimal exact decimal expansion, sign included, with no exponent, no trailing
fraction zeros and no fraction point for integral values.  Every float32
argument appearing in the verified claims is exactly representable with a
minimal exact expansion equal to Go's shortest round-trip output. -/
def floatCharArray (q : ℚ) : List Nat :=
  match decFracExp q.den with
  | none => []
  | some k =>
    let m : Nat := q.num.natAbs * (10 ^ k / q.den)
    let digs := padZeros (k + 1) (natChars m)
    let body :=
      if k = 0 then digs
      else digs.take (digs.length - k) ++ [46] ++ digs.drop (digs.length - k)
    if q.num < 0 then 45 :: body else body

/-- Truncation toward zero of a rational, Go's int(float) conversion for the
exactly representable values used here. -/
def ratTrunc (q : ℚ) : Int :=
  Int.tdiv q.num (q.den : Int)

/-- Decoder for the decimal ASCII encoding of a natural number. -/
def decodeNat (l : List Nat) : Nat :=
  Nat.ofDigits 10 ((l.map (fun c => c - 48)).reverse)

/-- Decoder for the signed decimal ASCII encoding (strconv.Atoi direction). -/
def decodeInt (l : List Nat) : Int :=
  if l.head? = some 45 then -(decodeNat l.tail : Int) else (decodeNat l : Int)

/-- Source `Stop`. -/
def Client.Stop (b : Client) : Out (Option Err) :=
  transmitSync [Op.Stop] b

/-- Source `EnableGamepad`. -/
def Client.EnableGamepad (b : Client) : Out (Option Err) :=
  transmitSync [Op.Gamepad] b

/-- Source `sendNOOP`. -/
def Client.sendNOOP (b : Client) : Out (Option Err) :=
  transmitSync [Op.NOOP] b

/-- Source `sendBad`. -/
def Client.sendBad (b : Client) : Out (Option Err) :=
  transmitSync [Op.BadCommand] b

/-- Source `sendInit`: fire-and-forget send of the Init opcode frame. -/
def Client.sendInit (b : Client) : Out (Option Err) :=
  transmit [Op.Init] b

/-- Source `LCDUpdate`. -/
def Client.LCDUpdate (b : Client) : Out (Option Err) :=
  transmitSync [Op.LCDUpdate] b

/-- Source `LCDClear`: clear, then on success optionally update. -/
def Client.LCDClear (update : Bool) (b : Client) : Out (Option Err) :=
  match transmitSync [Op.LCDClear] b with
  | .ok none b => if update then Client.LCDUpdate b else .ok none b
  | r => r

/-- Source `DrawPixel`. -/
def Client.DrawPixel (x y : Nat) (b : Client) : Out (Option Err) :=
  (transmit [Op.LCDDrawPixel] b).andThen (fun b =>
  (transmit (uintCharArray x) b).andThen (fun b =>
  transmitSync (uintCharArray y) b))

/-- Source `SetRGBLED`. -/
def Client.SetRGBLED (red green blue : Nat) (b : Client) : Out (Option Err) :=
  (transmit [Op.SetRGBLED] b).andThen (fun b =>
  (transmit (uintCharArray red) b).andThen (fun b =>
  (transmit (uintCharArray green) b).andThen (fun b =>
  transmitSync (uintCharArray blue) b)))

/-- Source `SetStatusLED`. -/
def Client.SetStatusLED (brightness : Nat) (b : Client) : Out (Option Err) :=
  (transmit [Op.SetStatusLED] b).andThen (fun b =>
  transmitSync (uintCharArray brightness) b)

/-- Source `DigitalWrite` on the client: the status-LED compatibility shim. -/
def Client.DigitalWrite (pin value : Int) (b : Client) : Out (Option Err) :=
  if value > 0 then Client.SetStatusLED 100 b else Client.SetStatusLED 0 b

/-- Source `MoveForward`. -/
def Client.MoveForward (cm : ℚ) (b : Client) : Out (Option Err) :=
  (transmit [Op.ForwardCM] b).andThen (fun b =>
  transmitSync (floatCharArray cm) b)

/-- Source `MoveBackward`. -/
def Client.MoveBackward (cm : ℚ) (b : Client) : Out (Option Err) :=
  (transmit [Op.BackwardCM] b).andThen (fun b =>
  transmitSync (floatCharArray cm) b)

/-- Source `Move`: the wire-level differential-drive command. -/
def Client.Move (left right : Int) (secs : ℚ) (b : Client) :
    Out (Option Err) :=
  (transmit [Op.Motors] b).andThen (fun b =>
  (transmit (intCharArray left) b).andThen (fun b =>
  (transmit (intCharArray right) b).andThen (fun b =>
  transmitSync (floatCharArray secs) b)))

/-- Source `haltFunctions`: the fixed shutdown sequence; every command's
error return is discarded. -/
def Client.haltFunctions (b : Client) : Out Unit :=
  match (((Client.Stop b).ignoring
      (fun b => Client.SetRGBLED 0 0 0 b)).ignoring
      (fun b => Client.SetStatusLED 0 b)).ignoring
      (fun b => Client.LCDClear true b) with
  | .ok _ b => .ok () b
  | .panic p => .panic p
  | .blocked => .blocked

/-- Source `setConnected`: store the connected flag. -/
def Client.setConnected (c : Bool) (b : Client) : Client :=
  { b with connected := c }

/-- State change of the transport close call. -/
def bumpC (b : Client) : Client :=
  { b with trace := b.trace ++ [Ev.closeCall] }

/-- Model of `b.connection.Close()`: recorded in the trace; a nil handle
aborts. -/
def closeConn (b : Client) : Out (Option Err) :=
  if b.connection then .ok b.closeErr (bumpC b) else .panic .nilDeref

/-- Source `Disconnect`: run the halt sequence, flip the connected flag to
false, then close the transport and return the close result. -/
def Client.Disconnect (b : Client) : Out (Option Err) :=
  match Client.haltFunctions b with
  | .ok _ b => closeConn (Client.setConnected false b)
  | .panic p => .panic p
  | .blocked => .blocked

/-- One pass of the receive loop over the read script: scan scripted results
until the terminator byte, returning the receive result together with the
number of script entries consumed and the number of successfully delivered
bytes; `none` when the script is exhausted first (the loop blocks). -/
def scanETB : List (Except Err Nat) → Option (Option Err × Nat × Nat)
  | [] => none
  | .error e :: _ => some (some e, 1, 0)
  | .ok v :: rest =>
    if v = ETB then some (none, 1, 1)
    else (scanETB rest).map (fun p => (p.1, p.2.1 + 1, p.2.2 + 1))

/-- Drop `c` consumed script entries and record `ev` delivered bytes. -/
def consume (b : Client) (c ev : Nat) : Client :=
  { b with reads := b.reads.drop c,
           trace := b.trace ++ List.replicate ev Ev.read }

/-- Source `receive`: read byte-at-a-time until the terminator, then call
`clearSync` for the trailing acknowledgment, discarding its result. -/
def Client.receive (b : Client) : Out (Option Err) :=
  if b.connection then
    match scanETB b.reads with
    | none => .blocked
    | some (some e, c, ev) => .ok (some e) (consume b c ev)
    | some (none, c, ev) =>
      match clearSync (consume b c ev) with
      | .ok _ b => .ok none b
      | .panic p => .panic p
      | .blocked => .blocked
  else .panic .nilDeref

/-- Source `Reset`: a no-op placeholder returning nil. -/
def Client.Reset (b : Client) : Out (Option Err) :=
  .ok none b

/-- Source `Connect`.  The guard rejects an already connected client without
touching anything.  Then the transport handle is stored, `Reset` runs, and
`sendInit` is called with its result DISCARDED: the following `if err != nil`
in the source re-tests the stale error from `Reset`, so an init write failure
is silently ignored.  The select race is modelled with the oracles: the
background receive either blocks forever, or completes (with the scripted
result) after `recvTime`; the timer fires at `connectTimeout`.  Whichever is
first decides the outcome; the abandoned background task's effects after a
timeout are not modelled.  On success the background task flips the connected
flag before the main flow returns (after a 10 ms sleep). -/
def Client.Connect (b : Client) : Out (Option Err) :=
  if b.connected then .ok (some Err.connected) b
  else
    match Client.Reset { b with connection := true } with
    | .ok (some e) b => .ok (some e) b
    | .panic p => .panic p
    | .blocked => .blocked
    | .ok none b1 =>
      match Client.sendInit b1 with
      | .panic p => .panic p
      | .blocked => .blocked
      | .ok _ b2 =>
        match Client.receive b2 with
        | .blocked =>
            .ok (some Err.timeout)
              { b2 with clock := b2.clock + b2.connectTimeout }
        | .panic p => .panic p
        | .ok res b3 =>
          if b2.connectTimeout ≤ b2.recvTime then
            .ok (some Err.timeout)
              { b2 with clock := b2.clock + b2.connectTimeout }
          else
            match res with
            | some e => .ok (some e) { b3 with clock := b3.clock + b2.recvTime }
            | none =>
                .ok none
                  { b3 with connected := true,
                            clock := b3.clock + b2.recvTime + 10 }

/-- Default handshake timeout from `New`: 5 seconds, in milliseconds. -/
def ConnectTimeoutDefault : Nat := 5000

/-- Source `New`: a fresh client with no transport handle, not connected,
default timeout; parametrised by the stream oracles of the environment it
will later be connected to. -/
def New (we : Nat → Option Err) (rs : List (Except Err Nat))
    (ce : Option Err) (rt : Nat) : Client :=
  { firmwareName := ""
    protocolVersion := ""
    connected := false
    connection := false
    connectTimeout := ConnectTimeoutDefault
    writeErr := we
    reads := rs
    closeErr := ce
    recvTime := rt
    nw := 0
    clock := 0
    trace := [] }

/-- Source adaptor method `Move`: scales the caller-level percentages by ten
and truncates to int before handing off to the client (float32 arithmetic is
exact at every value used in the claims, so the scaling is modelled over
exact rationals). -/
def Adaptor.Move (left right secs : ℚ) (b : Client) : Out (Option Err) :=
  Client.Move (ratTrunc (left * 10)) (ratTrunc (right * 10)) secs b

/-- Number of frames written in a trace segment. -/
def writesOf : List Ev → Nat
  | [] => 0
  | Ev.write _ :: t => writesOf t + 1
  | _ :: t => writesOf t

/-- Number of acknowledgment bytes read in a trace segment. -/
def readsOf : List Ev → Nat
  | [] => 0
  | Ev.read :: t => readsOf t + 1
  | _ :: t => readsOf t

/-- State change of a successful write of frame `fr`. -/
def bumpW (b : Client) (fr : List Nat) : Client :=
  { b with nw := b.nw + 1, trace := b.trace ++ [Ev.write fr] }

/-- State change of a successful acknowledgment read. -/
def bumpR (b : Client) : Client :=
  { b with reads := b.reads.tail, trace := b.trace ++ [Ev.read] }

@[simp] theorem bumpW_connection (b : Client) (fr : List Nat) :
    (bumpW b fr).connection = b.connection := rfl

@[simp] theorem bumpW_connected (b : Client) (fr : List Nat) :
    (bumpW b fr).connected = b.connected := rfl

@[simp] theorem bumpW_closeErr (b : Client) (fr : List Nat) :
    (bumpW b fr).closeErr = b.closeErr := rfl

@[simp] theorem bumpW_writeErr (b : Client) (fr : List Nat) :
    (bumpW b fr).writeErr = b.writeErr := rfl

@[simp] theorem bumpW_reads (b : Client) (fr : List Nat) :
    (bumpW b fr).reads = b.reads := rfl

@[simp] theorem bumpW_nw (b : Client) (fr : List Nat) :
    (bumpW b fr).nw = b.nw + 1 := rfl

@[simp] theorem bumpW_trace (b : Client) (fr : List Nat) :
    (bumpW b fr).trace = b.trace ++ [Ev.write fr] := rfl

@[simp] theorem bumpR_connection (b : Client) :
    (bumpR b).connection = b.connection := rfl

@[simp] theorem bumpR_connected (b : Client) :
    (bumpR b).connected = b.connected := rfl

@[simp] theorem bumpR_closeErr (b : Client) :
    (bumpR b).closeErr = b.closeErr := rfl

@[simp] theorem bumpR_writeErr (b : Client) :
    (bumpR b).writeErr = b.writeErr := rfl

@[simp] theorem bumpR_reads (b : Client) :
    (bumpR b).reads = b.reads.tail := rfl

@[simp] theorem bumpR_nw (b : Client) :
    (bumpR b).nw = b.nw := rfl

@[simp] theorem bumpR_trace (b : Client) :
    (bumpR b).trace = b.trace ++ [Ev.read] := rfl

@[simp] theorem setConnected_connection (c : Bool) (b : Client) :
    (Client.setConnected c b).connection = b.connection := rfl

@[simp] theorem setConnected_connected (c : Bool) (b : Client) :
    (Client.setConnected c b).connected = c := rfl

@[simp] theorem setConnected_closeErr (c : Bool) (b : Client) :
    (Client.setConnected c b).closeErr = b.closeErr := rfl

@[simp] theorem setConnected_trace (c : Bool) (b : Client) :
    (Client.setConnected c b).trace = b.trace := rfl

@[simp] theorem bumpC_connection (b : Client) :
    (bumpC b).connection = b.connection := rfl

@[simp] theorem bumpC_connected (b : Client) :
    (bumpC b).connected = b.connected := rfl

@[simp] theorem bumpC_closeErr (b : Client) :
    (bumpC b).closeErr = b.closeErr := rfl

@[simp] theorem bumpC_trace (b : Client) :
    (bumpC b).trace = b.trace ++ [Ev.closeCall] := rfl

theorem transmit_ok (data : List Nat) (b : Client)
    (hc : b.connection = true) (hw : b.writeErr b.nw = none) :
    transmit data b = Out.ok none (bumpW b (data ++ [ETB])) := by
  simp [transmit, connWrite, hc, hw, bumpW]

theorem transmit_fail (data : List Nat) (b : Client)
    (hc : b.connection = true) (e : Err) (hw : b.writeErr b.nw = some e) :
    transmit data b = Out.ok (some e) (bumpW b (data ++ [ETB])) := by
  simp [transmit, connWrite, hc, hw, bumpW]

theorem clearSync_okRead (b : Client) (v : Nat) (rest : List (Except Err Nat))
    (hc : b.connection = true) (hr : b.reads = .ok v :: rest) :
    clearSync b = Out.ok none (bumpR b) := by
  simp [clearSync, read1, hc, hr, bumpR]

theorem clearSync_errRead (b : Client) (e : Err) (rest : List (Except Err Nat))
    (hc : b.connection = true) (hr : b.reads = .error e :: rest) :
    clearSync b = Out.ok (some e) { b with reads := rest } := by
  simp [clearSync, read1, hc, hr]

theorem transmitSync_ok (data : List Nat) (b : Client)
    (hc : b.connection = true) (hw : b.writeErr b.nw = none)
    (v : Nat) (rest : List (Except Err Nat)) (hr : b.reads = .ok v :: rest) :
    transmitSync data b = Out.ok none (bumpR (bumpW b (data ++ [ETB]))) := by
  rw [transmitSync, transmit_ok data b hc hw]
  dsimp only
  rw [clearSync_okRead (bumpW b (data ++ [ETB])) v rest (by simp [hc]) (by simp [hr])]

theorem transmitSync_ackFail (data : List Nat) (b : Client)
    (hc : b.connection = true) (hw : b.writeErr b.nw = none)
    (e : Err) (rest : List (Except Err Nat)) (hr : b.reads = .error e :: rest) :
    transmitSync data b =
      Out.ok none { bumpW b (data ++ [ETB]) with reads := rest } := by
  rw [transmitSync, transmit_ok data b hc hw]
  dsimp only
  rw [clearSync_errRead (bumpW b (data ++ [ETB])) e rest (by simp [hc]) (by simp [hr])]

theorem transmitSync_writeFail (data : List Nat) (b : Client)
    (hc : b.connection = true) (e : Err) (hw : b.writeErr b.nw = some e) :
    transmitSync data b = Out.ok (some e) (bumpW b (data ++ [ETB])) := by
  rw [transmitSync, transmit_fail data b hc e hw]

theorem Stop_ok (b : Client) (hc : b.connection = true)
    (hw : ∀ k, b.writeErr k = none) (v : Nat) (rest : List (Except Err Nat))
    (hr : b.reads = .ok v :: rest) :
    Client.Stop b = Out.ok none (bumpR (bumpW b [Op.Stop, ETB])) := by
  rw [Client.Stop, transmitSync_ok [Op.Stop] b hc (hw _) v rest hr]
  rfl

theorem EnableGamepad_ok (b : Client) (hc : b.connection = true)
    (hw : ∀ k, b.writeErr k = none) (v : Nat) (rest : List (Except Err Nat))
    (hr : b.reads = .ok v :: rest) :
    Client.EnableGamepad b = Out.ok none (bumpR (bumpW b [Op.Gamepad, ETB])) := by
  rw [Client.EnableGamepad, transmitSync_ok [Op.Gamepad] b hc (hw _) v rest hr]
  rfl

theorem LCDUpdate_ok (b : Client) (hc : b.connection = true)
    (hw : ∀ k, b.writeErr k = none) (v : Nat) (rest : List (Except Err Nat))
    (hr : b.reads = .ok v :: rest) :
    Client.LCDUpdate b = Out.ok none (bumpR (bumpW b [Op.LCDUpdate, ETB])) := by
  rw [Client.LCDUpdate, transmitSync_ok [Op.LCDUpdate] b hc (hw _) v rest hr]
  rfl

theorem LCDClear_false_ok (b : Client) (hc : b.connection = true)
    (hw : ∀ k, b.writeErr k = none) (v : Nat) (rest : List (Except Err Nat))
    (hr : b.reads = .ok v :: rest) :
    Client.LCDClear false b = Out.ok none (bumpR (bumpW b [Op.LCDClear, ETB])) := by
  rw [Client.LCDClear, transmitSync_ok [Op.LCDClear] b hc (hw _) v rest hr]
  rfl

theorem LCDClear_true_ok (b : Client) (hc : b.connection = true)
    (hw : ∀ k, b.writeErr k = none) (v1 v2 : Nat) (rest : List (Except Err Nat))
    (hr : b.reads = .ok v1 :: .ok v2 :: rest) :
    Client.LCDClear true b =
      Out.ok none (bumpR (bumpW (bumpR (bumpW b [Op.LCDClear, ETB]))
        [Op.LCDUpdate, ETB])) := by
  rw [Client.LCDClear, transmitSync_ok [Op.LCDClear] b hc (hw _) v1 (.ok v2 :: rest) hr]
  dsimp only
  rw [Client.LCDUpdate,
    transmitSync_ok [Op.LCDUpdate] _ (by simp [hc]) (by simp [hw]) v2 rest (by simp [hr])]
  rfl

theorem SetStatusLED_ok (brightness : Nat) (b : Client)
    (hc : b.connection = true) (hw : ∀ k, b.writeErr k = none)
    (v : Nat) (rest : List (Except Err Nat)) (hr : b.reads = .ok v :: rest) :
    Client.SetStatusLED brightness b =
      Out.ok none (bumpR (bumpW (bumpW b [Op.SetStatusLED, ETB])
        (uintCharArray brightness ++ [ETB]))) := by
  rw [Client.SetStatusLED, transmit_ok _ b hc (hw _)]
  dsimp only [Out.andThen]
  rw [transmitSync_ok _ _ (by simp [hc]) (by simp [hw]) v rest (by simp [hr])]
  rfl

theorem SetRGBLED_ok (red green blue : Nat) (b : Client)
    (hc : b.connection = true) (hw : ∀ k, b.writeErr k = none)
    (v : Nat) (rest : List (Except Err Nat)) (hr : b.reads = .ok v :: rest) :
    Client.SetRGBLED red green blue b =
      Out.ok none (bumpR (bumpW (bumpW (bumpW (bumpW b [Op.SetRGBLED, ETB])
        (uintCharArray red ++ [ETB])) (uintCharArray green ++ [ETB]))
        (uintCharArray blue ++ [ETB]))) := by
  rw [Client.SetRGBLED, transmit_ok _ b hc (hw _)]
  dsimp only [Out.andThen]
  rw [transmit_ok _ _ (by simp [hc]) (by simp [hw])]
  dsimp only [Out.andThen]
  rw [transmit_ok _ _ (by simp [hc]) (by simp [hw])]
  dsimp only [Out.andThen]
  rw [transmitSync_ok _ _ (by simp [hc]) (by simp [hw]) v rest (by simp [hr])]
  rfl

theorem DrawPixel_ok (x y : Nat) (b : Client)
    (hc : b.connection = true) (hw : ∀ k, b.writeErr k = none)
    (v : Nat) (rest : List (Except Err Nat)) (hr : b.reads = .ok v :: rest) :
    Client.DrawPixel x y b =
      Out.ok none (bumpR (bumpW (bumpW (bumpW b [Op.LCDDrawPixel, ETB])
        (uintCharArray x ++ [ETB])) (uintCharArray y ++ [ETB]))) := by
  rw [Client.DrawPixel, transmit_ok _ b hc (hw _)]
  dsimp only [Out.andThen]
  rw [transmit_ok _ _ (by simp [hc]) (by simp [hw])]
  dsimp only [Out.andThen]
  rw [transmitSync_ok _ _ (by simp [hc]) (by simp [hw]) v rest (by simp [hr])]
  rfl

theorem MoveForward_ok (cm : ℚ) (b : Client)
    (hc : b.connection = true) (hw : ∀ k, b.writeErr k = none)
    (v : Nat) (rest : List (Except Err Nat)) (hr : b.reads = .ok v :: rest) :
    Client.MoveForward cm b =
      Out.ok none (bumpR (bumpW (bumpW b [Op.ForwardCM, ETB])
        (floatCharArray cm ++ [ETB]))) := by
  rw [Client.MoveForward, transmit_ok _ b hc (hw _)]
  dsimp only [Out.andThen]
  rw [transmitSync_ok _ _ (by simp [hc]) (by simp [hw]) v rest (by simp [hr])]
  rfl

theorem MoveBackward_ok (cm : ℚ) (b : Client)
    (hc : b.connection = true) (hw : ∀ k, b.writeErr k = none)
    (v : Nat) (rest : List (Except Err Nat)) (hr : b.reads = .ok v :: rest) :
    Client.MoveBackward cm b =
      Out.ok none (bumpR (bumpW (bumpW b [Op.BackwardCM, ETB])
        (floatCharArray cm ++ [ETB]))) := by
  rw [Client.MoveBackward, transmit_ok _ b hc (hw _)]
  dsimp only [Out.andThen]
  rw [transmitSync_ok _ _ (by simp [hc]) (by simp [hw]) v rest (by simp [hr])]
  rfl

theorem Move_ok (left right : Int) (secs : ℚ) (b : Client)
    (hc : b.connection = true) (hw : ∀ k, b.writeErr k = none)
    (v : Nat) (rest : List (Except Err Nat)) (hr : b.reads = .ok v :: rest) :
    Client.Move left right secs b =
      Out.ok none (bumpR (bumpW (bumpW (bumpW (bumpW b [Op.Motors, ETB])
        (intCharArray left ++ [ETB])) (intCharArray right ++ [ETB]))
        (floatCharArray secs ++ [ETB]))) := by
  rw [Client.Move, transmit_ok _ b hc (hw _)]
  dsimp only [Out.andThen]
  rw [transmit_ok _ _ (by simp [hc]) (by simp [hw])]
  dsimp only [Out.andThen]
  rw [transmit_ok _ _ (by simp [hc]) (by simp [hw])]
  dsimp only [Out.andThen]
  rw [transmitSync_ok _ _ (by simp [hc]) (by simp [hw]) v rest (by simp [hr])]
  rfl

/-- Client fields that the command path never touches: presence of the
transport handle, the scripted close result, and the connected flag. -/
def sameCore (b b2 : Client) : Prop :=
  b2.connection = b.connection ∧ b2.closeErr = b.closeErr ∧
    b2.connected = b.connected

theorem sameCore_refl (b : Client) : sameCore b b := ⟨rfl, rfl, rfl⟩

theorem sameCore_trans {a b c : Client} (h1 : sameCore a b)
    (h2 : sameCore b c) : sameCore a c :=
  ⟨h2.1.trans h1.1, h2.2.1.trans h1.2.1, h2.2.2.trans h1.2.2⟩

/-- A command program is tame when a normal return preserves the core fields
and the program cannot hit the nil-handle abort once a handle is present. -/
def Tame (run : Client → Out (Option Err)) : Prop :=
  ∀ b, (∀ a b2, run b = Out.ok a b2 → sameCore b b2) ∧
       (b.connection = true → ∀ p, run b ≠ Out.panic p)

theorem tame_connWrite (data : List Nat) : Tame (connWrite data) := by
  intro b
  unfold connWrite
  by_cases hc : b.connection = true
  · rw [if_pos hc]
    refine ⟨?_, ?_⟩
    · intro a b2 h
      injection h with h1 h2
      subst h2
      exact ⟨rfl, rfl, rfl⟩
    · intro _ p h
      exact Out.noConfusion h
  · rw [if_neg hc]
    refine ⟨?_, ?_⟩
    · intro a b2 h
      exact Out.noConfusion h
    · intro htrue _ _
      exact hc htrue

theorem tame_transmit (data : List Nat) : Tame (transmit data) :=
  tame_connWrite (data ++ [ETB])

theorem tame_clearSync : Tame clearSync := by
  intro b
  unfold clearSync read1
  by_cases hc : b.connection = true
  · rw [if_pos hc]
    rcases hreads : b.reads with _ | ⟨r, rest⟩
    · exact ⟨fun a b2 h => Out.noConfusion h, fun _ p h => Out.noConfusion h⟩
    · rcases r with v | e
      · refine ⟨?_, fun _ p h => Out.noConfusion h⟩
        intro a b2 h
        injection h with h1 h2
        subst h2
        exact ⟨rfl, rfl, rfl⟩
      · refine ⟨?_, fun _ p h => Out.noConfusion h⟩
        intro a b2 h
        injection h with h1 h2
        subst h2
        exact ⟨rfl, rfl, rfl⟩
  · rw [if_neg hc]
    refine ⟨fun a b2 h => Out.noConfusion h, fun htrue _ _ => hc htrue⟩

theorem tame_okNone : Tame (fun b => Out.ok none b) := by
  intro b
  refine ⟨?_, fun _ p h => Out.noConfusion h⟩
  intro a b2 h
  injection h with h1 h2
  subst h2
  exact sameCore_refl b

theorem tame_andThen {f g : Client → Out (Option Err)}
    (hf : Tame f) (hg : Tame g) : Tame (fun b => Out.andThen (f b) g) := by
  intro b
  rcases hfb : f b with ⟨a, b1⟩ | p | _
  · have h1 := (hf b).1 a b1 hfb
    rcases a with _ | e
    · simp only [Out.andThen, hfb]
      refine ⟨?_, ?_⟩
      · intro a2 b2 h
        exact sameCore_trans h1 ((hg b1).1 a2 b2 h)
      · intro hc p h
        exact (hg b1).2 (h1.1.trans hc) p h
    · simp only [Out.andThen, hfb]
      refine ⟨?_, fun _ p h => Out.noConfusion h⟩
      intro a2 b2 h
      injection h with h1e h2
      subst h2
      exact h1
  · simp only [Out.andThen, hfb]
    refine ⟨fun a2 b2 h => Out.noConfusion h, ?_⟩
    intro hc p2 h
    exact (hf b).2 hc p hfb
  · simp only [Out.andThen, hfb]
    exact ⟨fun a2 b2 h => Out.noConfusion h, fun _ p h => Out.noConfusion h⟩

theorem tame_ignoring {f g : Client → Out (Option Err)}
    (hf : Tame f) (hg : Tame g) : Tame (fun b => Out.ignoring (f b) g) := by
  intro b
  rcases hfb : f b with ⟨a, b1⟩ | p | _
  · have h1 := (hf b).1 a b1 hfb
    simp only [Out.ignoring, hfb]
    refine ⟨?_, ?_⟩
    · intro a2 b2 h
      exact sameCore_trans h1 ((hg b1).1 a2 b2 h)
    · intro hc p h
      exact (hg b1).2 (h1.1.trans hc) p h
  · simp only [Out.ignoring, hfb]
    refine ⟨fun a2 b2 h => Out.noConfusion h, ?_⟩
    intro hc p2 h
    exact (hf b).2 hc p hfb
  · simp only [Out.ignoring, hfb]
    exact ⟨fun a2 b2 h => Out.noConfusion h, fun _ p h => Out.noConfusion h⟩

theorem transmitSync_eq (data : List Nat) (b : Client) :
    transmitSync data b =
      Out.andThen (transmit data b)
        (fun b => Out.ignoring (clearSync b) (fun b2 => Out.ok none b2)) := by
  unfold transmitSync
  rcases htr : transmit data b with ⟨a, b1⟩ | p | _
  · rcases a with _ | e
    · dsimp only [Out.andThen]
      rcases hcs : clearSync b1 with ⟨a2, b2⟩ | p2 | _ <;>
        simp only [Out.ignoring, hcs]
    · rfl
  · rfl
  · rfl

theorem tame_transmitSync (data : List Nat) : Tame (transmitSync data) := by
  have h := tame_andThen (tame_transmit data)
    (tame_ignoring tame_clearSync (g := fun b2 => Out.ok none b2) tame_okNone)
  intro b
  rw [show transmitSync data = fun b => Out.andThen (transmit data b)
    (fun b => Out.ignoring (clearSync b) (fun b2 => Out.ok none b2)) from
    funext (transmitSync_eq data)]
  exact h b

theorem tame_Stop : Tame Client.Stop :=
  tame_transmitSync [Op.Stop]

theorem tame_LCDUpdate : Tame Client.LCDUpdate :=
  tame_transmitSync [Op.LCDUpdate]

theorem tame_LCDClear (update : Bool) : Tame (Client.LCDClear update) := by
  have heq : Client.LCDClear update = fun b =>
      Out.andThen (transmitSync [Op.LCDClear] b)
        (fun b => if update then Client.LCDUpdate b else Out.ok none b) := by
    funext b
    unfold Client.LCDClear
    rcases h : transmitSync [Op.LCDClear] b with ⟨a, b1⟩ | p | _
    · rcases a with _ | e <;> rfl
    · rfl
    · rfl
  rw [heq]
  refine tame_andThen (tame_transmitSync [Op.LCDClear]) ?_
  rcases update with _ | _
  · exact tame_okNone
  · exact tame_LCDUpdate

theorem tame_SetRGBLED (red green blue : Nat) :
    Tame (Client.SetRGBLED red green blue) :=
  tame_andThen (tame_transmit [Op.SetRGBLED])
    (tame_andThen (tame_transmit (uintCharArray red))
      (tame_andThen (tame_transmit (uintCharArray green))
        (tame_transmitSync (uintCharArray blue))))

theorem tame_SetStatusLED (brightness : Nat) :
    Tame (Client.SetStatusLED brightness) :=
  tame_andThen (tame_transmit [Op.SetStatusLED])
    (tame_transmitSync (uintCharArray brightness))

theorem haltFunctions_core (b : Client) :
    (∀ u b2, Client.haltFunctions b = Out.ok u b2 → sameCore b b2) ∧
    (b.connection = true → ∀ p, Client.haltFunctions b ≠ Out.panic p) := by
  have hchain : Tame (fun b => Out.ignoring (Out.ignoring (Out.ignoring
      (Client.Stop b) (fun b => Client.SetRGBLED 0 0 0 b))
      (fun b => Client.SetStatusLED 0 b))
      (fun b => Client.LCDClear true b)) :=
    tame_ignoring (tame_ignoring (tame_ignoring tame_Stop
      (tame_SetRGBLED 0 0 0)) (tame_SetStatusLED 0)) (tame_LCDClear true)
  unfold Client.haltFunctions
  rcases hch : Out.ignoring (Out.ignoring (Out.ignoring
      (Client.Stop b) (fun b => Client.SetRGBLED 0 0 0 b))
      (fun b => Client.SetStatusLED 0 b))
      (fun b => Client.LCDClear true b) with ⟨a, b1⟩ | p | _
  · refine ⟨?_, ?_⟩
    · intro u b2 h
      have h2 : Out.ok () b1 = Out.ok u b2 := h
      injection h2 with h3 h4
      subst h4
      exact (hchain b).1 a b1 hch
    · intro _ p h
      exact Out.noConfusion (show Out.ok () b1 = Out.panic p from h)
  · refine ⟨?_, ?_⟩
    · intro u b2 h
      exact Out.noConfusion (show Out.panic p = Out.ok u b2 from h)
    · intro hc p2 _
      exact absurd hch ((hchain b).2 hc p)
  · refine ⟨?_, ?_⟩
    · intro u b2 h
      exact Out.noConfusion (show Out.blocked = Out.ok u b2 from h)
    · intro _ p h
      exact Out.noConfusion (show Out.blocked = Out.panic p from h)

/-- Normal returns of `Disconnect` carry the close result as the returned
error and leave the client marked not connected. -/
theorem Disconnect_core (b : Client) (e : Option Err) (b2 : Client)
    (h : Client.Disconnect b = Out.ok e b2) :
    e = b.closeErr ∧ b2.connected = false := by
  unfold Client.Disconnect at h
  rcases hh : Client.haltFunctions b with ⟨u, b1⟩ | p | _
  · rw [hh] at h
    have hcore := (haltFunctions_core b).1 u b1 hh
    have h2 : closeConn (Client.setConnected false b1) = Out.ok e b2 := h
    unfold closeConn at h2
    by_cases hcn : (Client.setConnected false b1).connection = true
    · rw [if_pos hcn] at h2
      injection h2 with h3 h4
      subst h4
      exact ⟨h3.symm.trans hcore.2.1, rfl⟩
    · rw [if_neg hcn] at h2
      exact Out.noConfusion h2
  · rw [hh] at h
    exact Out.noConfusion (show Out.panic p = Out.ok e b2 from h)
  · rw [hh] at h
    exact Out.noConfusion (show Out.blocked = Out.ok e b2 from h)

/-- With a transport handle present, `Disconnect` never hits the nil-handle
abort: every write of the halt sequence and the close go through the stored
handle. -/
theorem Disconnect_noPanic (b : Client) (hc : b.connection = true)
    (p : Panic) : Client.Disconnect b ≠ Out.panic p := by
  unfold Client.Disconnect
  rcases hh : Client.haltFunctions b with ⟨u, b1⟩ | p2 | _
  · intro h
    have hcore := (haltFunctions_core b).1 u b1 hh
    have h2 : closeConn (Client.setConnected false b1) = Out.panic p := h
    unfold closeConn at h2
    rw [if_pos (show (Client.setConnected false b1).connection = true
      from hcore.1.trans hc)] at h2
    exact Out.noConfusion h2
  · exact absurd hh ((haltFunctions_core b).2 hc p2)
  · intro h
    exact Out.noConfusion (show Out.blocked = Out.panic p from h)

theorem digitsLE_eq (fuel n : Nat) (h : n ≤ fuel) :
    digitsLE fuel n = Nat.digits 10 n := by
  induction fuel generalizing n with
  | zero =>
    have hn : n = 0 := Nat.le_zero.mp h
    subst hn
    simp [digitsLE]
  | succ f ih =>
    rcases n with _ | m
    · simp [digitsLE]
    · rw [show digitsLE (f + 1) (m + 1) =
        (m + 1) % 10 :: digitsLE f ((m + 1) / 10) from rfl]
      have hdiv : (m + 1) / 10 ≤ f := by
        have := Nat.div_lt_self (Nat.succ_pos m) (by norm_num : 1 < 10)
        omega
      rw [ih ((m + 1) / 10) hdiv,
        Nat.digits_def' (by norm_num : 1 < 10) (Nat.succ_pos m)]

theorem natChars_eq (n : Nat) :
    natChars n =
      if n = 0 then [48]
      else (Nat.digits 10 n).reverse.map (fun d => d + 48) := by
  rw [natChars, digitsLE_eq n n le_rfl]

/-- The encoder output for a natural number is nonempty, starts with an ASCII
digit, and has no leading zero unless the number is zero. -/
theorem natChars_cons (n : Nat) :
    ∃ c cs, natChars n = c :: cs ∧ 48 ≤ c ∧ c ≤ 57 ∧ (n ≠ 0 → c ≠ 48) := by
  rw [natChars_eq]
  by_cases h0 : n = 0
  · subst h0
    refine ⟨48, [], by norm_num, by norm_num, by norm_num, fun h => absurd rfl h⟩
  · rw [if_neg h0]
    have hne : Nat.digits 10 n ≠ [] := Nat.digits_ne_nil_iff_ne_zero.mpr h0
    rcases List.eq_nil_or_concat (Nat.digits 10 n) with hnil | ⟨L, d, hL⟩
    · exact absurd hnil hne
    rw [List.concat_eq_append] at hL
    have hmem : d ∈ Nat.digits 10 n := by
      rw [hL]
      exact List.mem_append_right L (List.mem_singleton_self d)
    have hd10 : d < 10 := Nat.digits_lt_base (by norm_num) hmem
    have hlast : (Nat.digits 10 n).getLast hne ≠ 0 :=
      Nat.getLast_digit_ne_zero 10 h0
    have hgl : (Nat.digits 10 n).getLast? = some d := by
      rw [hL]
      exact List.getLast?_concat L
    have hgl2 : (Nat.digits 10 n).getLast? =
        some ((Nat.digits 10 n).getLast hne) :=
      List.getLast?_eq_getLast_of_ne_nil hne
    have hdlast : (Nat.digits 10 n).getLast hne = d :=
      Option.some.inj (hgl2.symm.trans hgl)
    have hdne : d ≠ 0 := hdlast ▸ hlast
    refine ⟨d + 48, L.reverse.map (fun d => d + 48), ?_, by omega, by omega,
      fun _ h => by omega⟩
    rw [hL, List.reverse_concat']
    rfl

theorem decodeNat_natChars (n : Nat) : decodeNat (natChars n) = n := by
  rw [natChars_eq]
  by_cases h0 : n = 0
  · subst h0
    simp [decodeNat, Nat.ofDigits]
  · rw [if_neg h0, decodeNat, List.map_map]
    have hcomp : ((fun c => c - 48) ∘ fun d : Nat => d + 48) = id := by
      funext d
      simp
    rw [hcomp, List.map_id, List.reverse_reverse, Nat.ofDigits_digits]

theorem decodeInt_intCharArray (n : Int) : decodeInt (intCharArray n) = n := by
  obtain ⟨c, cs, hcons, hge, hle, hnz⟩ := natChars_cons n.natAbs
  by_cases hn : n < 0
  · rw [intCharArray, if_pos hn, decodeInt]
    rw [if_pos (show (45 :: natChars n.natAbs).head? = some 45 from rfl)]
    show -(decodeNat (natChars n.natAbs) : Int) = n
    rw [decodeNat_natChars]
    omega
  · rw [intCharArray, if_neg hn, decodeInt, hcons]
    rw [if_neg (by simp only [List.head?_cons, Option.some.injEq]; omega)]
    rw [← hcons, decodeNat_natChars]
    omega

/-- Connected client whose one scripted acknowledgment read fails. -/
def cxC1 : Client :=
  { New (fun _ => none) [.error (.transport 7)] none 0 with connection := true }

/-- C1 (counterexample): the claim says a failing acknowledgment read makes
the synchronous send return that error.  On this client the write succeeds
and the scripted acknowledgment read fails with a transport error, yet
`transmitSync` returns nil: the source drops the value of `clearSync`. -/
theorem C1_ack_read_error_swallowed :
    cxC1.reads = [.error (.transport 7)] ∧
    (transmitSync [Op.Stop] cxC1).errOf = some none :=
  ⟨rfl, rfl⟩

/-- C1 (amended): a synchronous send performs the fire-and-forget send and
then reads exactly one acknowledgment byte.  A write failure is returned to
the caller, skipping the acknowledgment read; a failure of the acknowledgment
read is discarded: the read is consumed but the call returns nil anyway. -/
theorem C1_transmitSync_behavior (data : List Nat) (b : Client)
    (hc : b.connection = true) :
    (∀ e, b.writeErr b.nw = some e →
      transmitSync data b = Out.ok (some e) (bumpW b (data ++ [ETB]))) ∧
    (b.writeErr b.nw = none → ∀ r rest, b.reads = r :: rest →
      ∃ b2, transmitSync data b = Out.ok none b2 ∧ b2.reads = rest ∧
        b2.trace = b.trace ++ [Ev.write (data ++ [ETB])] ++
          (match r with | .ok _ => [Ev.read] | .error _ => [])) := by
  refine ⟨fun e hw => transmitSync_writeFail data b hc e hw, ?_⟩
  intro hw r rest hr
  rcases r with e2 | v
  · refine ⟨{ bumpW b (data ++ [ETB]) with reads := rest },
      transmitSync_ackFail data b hc hw e2 rest hr, rfl, ?_⟩
    simp
  · refine ⟨bumpR (bumpW b (data ++ [ETB])),
      transmitSync_ok data b hc hw v rest hr, ?_, ?_⟩
    · simp [hr]
    · simp

/-- Connected client with one successful scripted acknowledgment read. -/
def wC1 : Client :=
  { New (fun _ => none) [.ok 9] none 0 with connection := true }

/-- C1 witness: the amended statement instantiated on a concrete client. -/
theorem C1_transmitSync_behavior_witness :
    ∃ b2, transmitSync [Op.NOOP] wC1 = Out.ok none b2 ∧ b2.reads = [] ∧
      b2.trace = wC1.trace ++ [Ev.write ([Op.NOOP] ++ [ETB])] ++ [Ev.read] := by
  obtain ⟨b2, h1, h2, h3⟩ :=
    (C1_transmitSync_behavior [Op.NOOP] wC1 rfl).2 rfl (.ok 9) [] rfl
  exact ⟨b2, h1, h2, h3⟩

/-- Connected client on which the Stop write of the halt sequence fails and
everything else succeeds. -/
def cxC2 : Client :=
  { New (fun k => if k = 0 then some (.transport 3) else none)
      [.ok 6, .ok 6, .ok 6, .ok 6] none 0 with
    connection := true, connected := true }

/-- C2 (counterexample): the claim says a failure during the halt sequence is
reported by `Disconnect`.  On this client the halt sequence's first command
(Stop) fails with a transport error, yet `Disconnect` returns nil (the close
result): `haltFunctions` discards every command error.  The trace of this
run shows the failed Stop write (issued, no acknowledgment read) followed by
the remaining halt commands and the close call. -/
theorem C2_halt_error_swallowed :
    cxC2.writeErr 0 = some (.transport 3) ∧
    (Client.Disconnect cxC2).errOf = some none ∧
    (Client.Disconnect cxC2).traceOf = some
      [Ev.write [Op.Stop, ETB],
       Ev.write [Op.SetRGBLED, ETB], Ev.write [48, ETB], Ev.write [48, ETB],
       Ev.write [48, ETB], Ev.read,
       Ev.write [Op.SetStatusLED, ETB], Ev.write [48, ETB], Ev.read,
       Ev.write [Op.LCDClear, ETB], Ev.read,
       Ev.write [Op.LCDUpdate, ETB], Ev.read,
       Ev.closeCall] ∧
    (Client.Disconnect cxC2).stateOf.map Client.connected = some false :=
  ⟨rfl, rfl, rfl, rfl⟩

/-- C2 (amended): a failure during the halt sequence is swallowed, not
reported: whenever `Disconnect` returns normally, the returned error is
exactly the transport-close result, independent of any halt-sequence
failure, and the client has been marked Disconnected. -/
theorem C2_disconnect_returns_close_result (b : Client) (e : Option Err)
    (b2 : Client) (h : Client.Disconnect b = Out.ok e b2) :
    e = b.closeErr ∧ b2.connected = false :=
  Disconnect_core b e b2 h

/-- Connected client whose transport close fails. -/
def wC2 : Client :=
  { New (fun _ => none) [.ok 1, .ok 1, .ok 1, .ok 1, .ok 1]
      (some (.closeFail 9)) 0 with
    connection := true, connected := true }

/-- The client state after disconnecting `wC2`. -/
def wC2res : Client :=
  match Client.Disconnect wC2 with
  | .ok _ b => b
  | _ => wC2

/-- C2 witness: the amended statement instantiated on a concrete client. -/
theorem C2_disconnect_returns_close_result_witness :
    some (Err.closeFail 9) = wC2.closeErr ∧ wC2res.connected = false :=
  C2_disconnect_returns_close_result wC2 (some (Err.closeFail 9)) wC2res rfl

/-- Fresh client whose very first write (the Init frame) fails, and whose
background receive never completes. -/
def cxC3 : Client :=
  New (fun k => if k = 0 then some (.transport 5) else none) [] none 0

/-- C3 (code bug): the claim (and the adjacent dead error check in the
source) says a failing Init write makes `Connect` return that write error.
The source discards `b.sendInit()`'s result and re-tests the stale error
from `Reset`, so `Connect` proceeds to the select and, with the background
receive never completing, returns the handshake-timeout error instead of the
Init write error. -/
theorem C3_init_write_error_ignored :
    cxC3.writeErr 0 = some (.transport 5) ∧
    (Client.Connect cxC3).errOf = some (some Err.timeout) ∧
    some Err.timeout ≠ some (Err.transport 5) :=
  ⟨rfl, rfl, by decide⟩

/-- C5: calling `Connect` on a client in the Connected state returns the
AlreadyConnected error and returns the client completely unchanged: no
writes are performed and the state is untouched. -/
theorem C5_connect_while_connected (b : Client) (hc : b.connected = true) :
    Client.Connect b = Out.ok (some Err.connected) b := by
  unfold Client.Connect
  rw [if_pos hc]

/-- Connected client used to instantiate C5. -/
def wC5 : Client :=
  { New (fun _ => none) [] none 0 with connected := true }

/-- C5 witness: the guard on a concrete connected client. -/
theorem C5_connect_while_connected_witness :
    Client.Connect wC5 = Out.ok (some Err.connected) wC5 :=
  C5_connect_while_connected wC5 rfl

/-- C4: whatever the prior connected flag, with a working transport
`Disconnect` emits exactly the frames of Stop, then SetRGBLED(0,0,0), then
SetStatusLED(0), then LCDClear followed by its update command, all before
the close call; afterwards the connected flag is false and the close result
(error or not) is returned, the state flip having already taken effect. -/
theorem C4_disconnect_sequence (b : Client) (hc : b.connection = true)
    (hw : ∀ k, b.writeErr k = none) (v1 v2 v3 v4 v5 : Nat)
    (rest : List (Except Err Nat))
    (hr : b.reads = .ok v1 :: .ok v2 :: .ok v3 :: .ok v4 :: .ok v5 :: rest) :
    (Client.Disconnect b).errOf = some b.closeErr ∧
    (Client.Disconnect b).traceOf = some (b.trace ++
      [Ev.write [Op.Stop, ETB], Ev.read,
       Ev.write [Op.SetRGBLED, ETB], Ev.write [48, ETB], Ev.write [48, ETB],
       Ev.write [48, ETB], Ev.read,
       Ev.write [Op.SetStatusLED, ETB], Ev.write [48, ETB], Ev.read,
       Ev.write [Op.LCDClear, ETB], Ev.read,
       Ev.write [Op.LCDUpdate, ETB], Ev.read,
       Ev.closeCall]) ∧
    (Client.Disconnect b).stateOf.map Client.connected = some false := by
  have h0 : uintCharArray 0 = [48] := rfl
  unfold Client.Disconnect Client.haltFunctions
  rw [Stop_ok b hc hw v1 _ hr]
  simp only [Out.ignoring]
  rw [SetRGBLED_ok 0 0 0 _ (by simp [hc]) (by simp [hw]) v2
    (.ok v3 :: .ok v4 :: .ok v5 :: rest) (by simp [hr])]
  simp only [Out.ignoring]
  rw [SetStatusLED_ok 0 _ (by simp [hc]) (by simp [hw]) v3
    (.ok v4 :: .ok v5 :: rest) (by simp [hr])]
  simp only [Out.ignoring]
  rw [LCDClear_true_ok _ (by simp [hc]) (by simp [hw]) v4 v5 rest
    (by simp [hr])]
  dsimp only
  unfold closeConn
  rw [if_pos (by simp [hc])]
  refine ⟨?_, ?_, ?_⟩
  · simp only [Out.errOf, Option.some.injEq]
    simp
  · simp only [Out.traceOf, Out.stateOf, Option.map, Option.some.injEq]
    simp [h0, List.append_assoc]
  · simp only [Out.stateOf, Option.map, Option.some.injEq]
    simp

/-- Client with a failing close and five good acknowledgments, used to
instantiate C4. -/
def wC4 : Client :=
  { New (fun _ => none) [.ok 1, .ok 2, .ok 3, .ok 4, .ok 5]
      (some (.closeFail 2)) 0 with connection := true }

/-- C4 witness: the halt sequence on a concrete client, with the close error
returned and the state already flipped. -/
theorem C4_disconnect_sequence_witness :
    (Client.Disconnect wC4).errOf = some (some (Err.closeFail 2)) ∧
    (Client.Disconnect wC4).traceOf = some
      [Ev.write [Op.Stop, ETB], Ev.read,
       Ev.write [Op.SetRGBLED, ETB], Ev.write [48, ETB], Ev.write [48, ETB],
       Ev.write [48, ETB], Ev.read,
       Ev.write [Op.SetStatusLED, ETB], Ev.write [48, ETB], Ev.read,
       Ev.write [Op.LCDClear, ETB], Ev.read,
       Ev.write [Op.LCDUpdate, ETB], Ev.read,
       Ev.closeCall] ∧
    (Client.Disconnect wC4).stateOf.map Client.connected = some false :=
  C4_disconnect_sequence wC4 rfl (fun k => rfl) 1 2 3 4 5 [] rfl

/-- C6: on a client that is not connected, if the background receive cycle
never completes (its scripted reads run out before a terminator byte), then
`Connect` returns the distinct handshake-timeout error, the model clock
advances by exactly the configured timeout (so the call returns no earlier
than that timeout after the wait begins), and the connected flag stays
false. -/
theorem C6_handshake_timeout (b : Client) (hnc : b.connected = false)
    (hblock : scanETB b.reads = none) :
    ∃ b2, Client.Connect b = Out.ok (some Err.timeout) b2 ∧
      b2.connected = false ∧ b2.clock = b.clock + b.connectTimeout := by
  have hrecv : Client.receive
      (bumpW { b with connection := true } ([Op.Init] ++ [ETB])) =
      Out.blocked := by
    unfold Client.receive
    rw [if_pos (show (bumpW { b with connection := true }
      ([Op.Init] ++ [ETB])).connection = true from rfl)]
    rw [show scanETB (bumpW { b with connection := true }
      ([Op.Init] ++ [ETB])).reads = none from hblock]
  unfold Client.Connect
  rw [if_neg (by simp [hnc])]
  rw [show Client.Reset { b with connection := true } =
    Out.ok none { b with connection := true } from rfl]
  dsimp only
  rw [show Client.sendInit { b with connection := true } =
    Out.ok (b.writeErr b.nw)
      (bumpW { b with connection := true } ([Op.Init] ++ [ETB])) from rfl]
  dsimp only
  rw [hrecv]
  refine ⟨_, rfl, ?_, ?_⟩
  · simp [hnc]
  · rfl

/-- Fresh client whose read script is empty: the background receive blocks
forever. -/
def wC6 : Client := New (fun _ => none) [] none 0

/-- C6 witness: the timeout outcome on a concrete fresh client with the
default five-second timeout. -/
theorem C6_handshake_timeout_witness :
    (Client.Connect wC6).errOf = some (some Err.timeout) ∧
    (Client.Connect wC6).stateOf.map Client.connected = some false ∧
    (Client.Connect wC6).stateOf.map Client.clock =
      some ConnectTimeoutDefault := by
  obtain ⟨b2, h1, h2, h3⟩ := C6_handshake_timeout wC6 rfl rfl
  refine ⟨?_, ?_, ?_⟩
  · rw [h1]
    rfl
  · rw [h1]
    dsimp only [Out.stateOf, Option.map]
    rw [h2]
  · rw [h1]
    dsimp only [Out.stateOf, Option.map]
    rw [h3]
    rfl

theorem ratTrunc_55 : ratTrunc ((11/2 : ℚ) * 10) = 55 := by
  have h : (11/2 : ℚ) * 10 = 55 := by norm_num
  rw [ratTrunc, h]
  norm_num

theorem ratTrunc_neg30 : ratTrunc ((-3 : ℚ) * 10) = -30 := by
  have h : (-3 : ℚ) * 10 = -30 := by norm_num
  rw [ratTrunc, h]
  norm_num

theorem floatCharArray_2_5 : floatCharArray (5/2 : ℚ) = [50, 46, 53] := by
  have hn : (5/2 : ℚ).num = 5 := by norm_num
  have hd : (5/2 : ℚ).den = 2 := by norm_num [Rat.den]
  rw [floatCharArray, hn, hd]
  decide

theorem intCharArray_55 : intCharArray 55 = [53, 53] := by decide

theorem intCharArray_neg30 : intCharArray (-30) = [45, 51, 48] := by decide

/-- C7: the facade-level differential drive `Move(5.5, -3.0, 2.5)` scales
the percentages by ten and truncates (5.5 becomes 55, -3.0 becomes -30), so
the wire-level command is the Motors opcode frame followed by the integer
tokens 55 and -30 and the float token 2.5, after which exactly one
acknowledgment byte is read. -/
theorem C7_facade_move (b : Client) (hc : b.connection = true)
    (hw : ∀ k, b.writeErr k = none) (v : Nat) (rest : List (Except Err Nat))
    (hr : b.reads = .ok v :: rest) :
    (Adaptor.Move (11/2 : ℚ) (-3 : ℚ) (5/2 : ℚ) b).errOf = some none ∧
    (Adaptor.Move (11/2 : ℚ) (-3 : ℚ) (5/2 : ℚ) b).traceOf = some (b.trace ++
      [Ev.write [Op.Motors, ETB], Ev.write [53, 53, ETB],
       Ev.write [45, 51, 48, ETB], Ev.write [50, 46, 53, ETB], Ev.read]) := by
  unfold Adaptor.Move
  rw [ratTrunc_55, ratTrunc_neg30]
  rw [Move_ok 55 (-30) (5/2 : ℚ) b hc hw v rest hr]
  refine ⟨rfl, ?_⟩
  simp only [Out.traceOf, Out.stateOf, Option.map, Option.some.injEq]
  simp [intCharArray_55, intCharArray_neg30, floatCharArray_2_5,
    List.append_assoc]

/-- Connected client with one good acknowledgment, used to instantiate C7. -/
def wC7 : Client :=
  { New (fun _ => none) [.ok 3] none 0 with connection := true }

/-- C7 witness: the facade move on a concrete client. -/
theorem C7_facade_move_witness :
    (Adaptor.Move (11/2 : ℚ) (-3 : ℚ) (5/2 : ℚ) wC7).errOf = some none ∧
    (Adaptor.Move (11/2 : ℚ) (-3 : ℚ) (5/2 : ℚ) wC7).traceOf = some
      [Ev.write [Op.Motors, ETB], Ev.write [53, 53, ETB],
       Ev.write [45, 51, 48, ETB], Ev.write [50, 46, 53, ETB], Ev.read] :=
  C7_facade_move wC7 rfl (fun _ => rfl) 3 [] rfl

/-- Connected client with one good acknowledgment, used for the C8
counterexample. -/
def cxC8 : Client :=
  { New (fun _ => none) [.ok 0] none 0 with connection := true }

/-- C8 (counterexample): SetRGBLED has three argument tokens, but a
successful synchronous call writes four frames (the opcode frame plus three
argument frames), not three, while reading one acknowledgment byte. -/
theorem C8_frame_count_off_by_one :
    (Client.SetRGBLED 10 20 30 cxC8).errOf = some none ∧
    ((Client.SetRGBLED 10 20 30 cxC8).traceOf).map writesOf = some 4 ∧
    ((Client.SetRGBLED 10 20 30 cxC8).traceOf).map writesOf ≠ some 3 ∧
    ((Client.SetRGBLED 10 20 30 cxC8).traceOf).map readsOf = some 1 := by
  refine ⟨rfl, rfl, ?_, rfl⟩
  rw [show ((Client.SetRGBLED 10 20 30 cxC8).traceOf).map writesOf = some 4
    from rfl]
  decide

/-- A run of `run` from `b` that succeeds, writes exactly `n` frames and
reads exactly one acknowledgment byte. -/
def WritesFramesReadsAck (run : Client → Out (Option Err)) (b : Client)
    (n : Nat) : Prop :=
  (run b).errOf = some none ∧
  ∃ t, (run b).traceOf = some (b.trace ++ t) ∧ writesOf t = n ∧ readsOf t = 1

theorem wfra_of_eq {run : Client → Out (Option Err)} {b : Client} {n : Nat}
    (s2 : Client) (t : List Ev) (hrun : run b = Out.ok none s2)
    (htr : s2.trace = b.trace ++ t) (hwn : writesOf t = n)
    (hrn : readsOf t = 1) : WritesFramesReadsAck run b n := by
  refine ⟨by rw [hrun]; rfl, t, ?_, hwn, hrn⟩
  rw [Out.traceOf, hrun]
  dsimp only [Out.stateOf, Option.map]
  rw [htr]

/-- C8 (amended): every operation of the command set with k argument tokens
writes, on a successful synchronous-mode call, exactly k + 1 frames (the
opcode frame plus the k argument frames) and reads exactly one
acknowledgment byte. -/
theorem C8_frames_per_operation (b : Client) (hc : b.connection = true)
    (hw : ∀ k, b.writeErr k = none) (v : Nat) (rest : List (Except Err Nat))
    (hr : b.reads = .ok v :: rest) :
    WritesFramesReadsAck Client.Stop b (0 + 1) ∧
    WritesFramesReadsAck Client.EnableGamepad b (0 + 1) ∧
    WritesFramesReadsAck Client.LCDUpdate b (0 + 1) ∧
    WritesFramesReadsAck (Client.LCDClear false) b (0 + 1) ∧
    (∀ br, WritesFramesReadsAck (Client.SetStatusLED br) b (1 + 1)) ∧
    (∀ x y, WritesFramesReadsAck (Client.DrawPixel x y) b (2 + 1)) ∧
    (∀ r g bl, WritesFramesReadsAck (Client.SetRGBLED r g bl) b (3 + 1)) ∧
    (∀ cm, WritesFramesReadsAck (Client.MoveForward cm) b (1 + 1)) ∧
    (∀ cm, WritesFramesReadsAck (Client.MoveBackward cm) b (1 + 1)) ∧
    (∀ l r s, WritesFramesReadsAck (Client.Move l r s) b (3 + 1)) := by
  refine ⟨?_, ?_, ?_, ?_, ?_, ?_, ?_, ?_, ?_, ?_⟩
  · exact wfra_of_eq _ [Ev.write [Op.Stop, ETB], Ev.read]
      (Stop_ok b hc hw v rest hr) (by simp) rfl rfl
  · exact wfra_of_eq _ [Ev.write [Op.Gamepad, ETB], Ev.read]
      (EnableGamepad_ok b hc hw v rest hr) (by simp) rfl rfl
  · exact wfra_of_eq _ [Ev.write [Op.LCDUpdate, ETB], Ev.read]
      (LCDUpdate_ok b hc hw v rest hr) (by simp) rfl rfl
  · exact wfra_of_eq _ [Ev.write [Op.LCDClear, ETB], Ev.read]
      (LCDClear_false_ok b hc hw v rest hr) (by simp) rfl rfl
  · intro br
    exact wfra_of_eq _ [Ev.write [Op.SetStatusLED, ETB],
        Ev.write (uintCharArray br ++ [ETB]), Ev.read]
      (SetStatusLED_ok br b hc hw v rest hr) (by simp) rfl rfl
  · intro x y
    exact wfra_of_eq _ [Ev.write [Op.LCDDrawPixel, ETB],
        Ev.write (uintCharArray x ++ [ETB]),
        Ev.write (uintCharArray y ++ [ETB]), Ev.read]
      (DrawPixel_ok x y b hc hw v rest hr) (by simp) rfl rfl
  · intro r g bl
    exact wfra_of_eq _ [Ev.write [Op.SetRGBLED, ETB],
        Ev.write (uintCharArray r ++ [ETB]),
        Ev.write (uintCharArray g ++ [ETB]),
        Ev.write (uintCharArray bl ++ [ETB]), Ev.read]
      (SetRGBLED_ok r g bl b hc hw v rest hr) (by simp) rfl rfl
  · intro cm
    exact wfra_of_eq _ [Ev.write [Op.ForwardCM, ETB],
        Ev.write (floatCharArray cm ++ [ETB]), Ev.read]
      (MoveForward_ok cm b hc hw v rest hr) (by simp) rfl rfl
  · intro cm
    exact wfra_of_eq _ [Ev.write [Op.BackwardCM, ETB],
        Ev.write (floatCharArray cm ++ [ETB]), Ev.read]
      (MoveBackward_ok cm b hc hw v rest hr) (by simp) rfl rfl
  · intro l r s
    exact wfra_of_eq _ [Ev.write [Op.Motors, ETB],
        Ev.write (intCharArray l ++ [ETB]),
        Ev.write (intCharArray r ++ [ETB]),
        Ev.write (floatCharArray s ++ [ETB]), Ev.read]
      (Move_ok l r s b hc hw v rest hr) (by simp) rfl rfl

/-- Connected client with one good acknowledgment, used to instantiate the
amended C8. -/
def wC8 : Client :=
  { New (fun _ => none) [.ok 2] none 0 with connection := true }

/-- C8 witness: two representative operations at a concrete client. -/
theorem C8_frames_per_operation_witness :
    WritesFramesReadsAck Client.Stop wC8 (0 + 1) ∧
    WritesFramesReadsAck (Client.SetRGBLED 10 20 30) wC8 (3 + 1) := by
  obtain ⟨h1, _, _, _, _, _, h7, _, _, _⟩ :=
    C8_frames_per_operation wC8 rfl (fun _ => rfl) 2 [] rfl
  exact ⟨h1, h7 10 20 30⟩

/-- C9: the integer encoder produces the minimal decimal ASCII text of its
argument: decoding it returns the argument (round trip), the leading minus
sign appears exactly for negative arguments, and the digit part has no
leading zero unless the argument is zero. -/
theorem C9_int_encoding_roundtrip (n : Int) :
    decodeInt (intCharArray n) = n ∧
    ((intCharArray n).head? = some 45 ↔ n < 0) ∧
    (n ≠ 0 →
      (if n < 0 then (intCharArray n).tail.head? else (intCharArray n).head?)
        ≠ some 48) := by
  obtain ⟨c, cs, hcons, hge, hle, hnz⟩ := natChars_cons n.natAbs
  refine ⟨decodeInt_intCharArray n, ?_, ?_⟩
  · by_cases hn : n < 0
    · rw [intCharArray, if_pos hn]
      simp only [List.head?_cons]
      exact ⟨fun _ => hn, fun _ => trivial⟩
    · rw [intCharArray, if_neg hn, hcons]
      simp only [List.head?_cons, Option.some.injEq]
      exact ⟨fun h => absurd h (by omega), fun h => absurd h hn⟩
  · intro h0
    have habs : n.natAbs ≠ 0 := by omega
    by_cases hn : n < 0
    · rw [if_pos hn, intCharArray, if_pos hn]
      simp only [List.tail_cons, hcons, List.head?_cons]
      exact fun h => hnz habs (Option.some.inj h)
    · rw [if_neg hn, intCharArray, if_neg hn, hcons]
      simp only [List.head?_cons]
      exact fun h => hnz habs (Option.some.inj h)

/-- C9 witness: the round trip and shape properties at -37. -/
theorem C9_int_encoding_roundtrip_witness :
    decodeInt (intCharArray (-37)) = -37 ∧
    ((intCharArray (-37)).head? = some 45 ↔ (-37 : Int) < 0) ∧
    (intCharArray (-37)).tail.head? ≠ some 48 := by
  obtain ⟨h1, h2, h3⟩ := C9_int_encoding_roundtrip (-37)
  refine ⟨h1, h2, ?_⟩
  have h4 := h3 (by norm_num)
  rwa [if_pos (by norm_num : (-37 : Int) < 0)] at h4

/-- C10: a freshly created client has no transport handle and the command
path has no guard for it: `Disconnect` on a fresh client aborts with a nil
dereference at the halt sequence's first write, and so does any
fire-and-forget transmit on a handle-less client.  Under the precondition
that a handle is present, `Disconnect` can never hit the nil dereference:
every write of the halt sequence and the close go through the stored
handle. -/
theorem C10_nil_connection_unsafe (we : Nat → Option Err)
    (rs : List (Except Err Nat)) (ce : Option Err) (rt : Nat) :
    (New we rs ce rt).connection = false ∧
    Client.Disconnect (New we rs ce rt) = Out.panic Panic.nilDeref ∧
    (∀ data b, b.connection = false →
      transmit data b = Out.panic Panic.nilDeref) ∧
    (∀ b, b.connection = true → ∀ p, Client.Disconnect b ≠ Out.panic p) := by
  refine ⟨rfl, rfl, ?_, fun b hc p => Disconnect_noPanic b hc p⟩
  intro data b hcf
  unfold transmit connWrite
  rw [if_neg (by simp [hcf])]

/-- Connected client with an empty read script, used to instantiate C10. -/
def wC10 : Client :=
  { New (fun _ => none) [] none 0 with connection := true }

/-- C10 witness: the nil dereference on a fresh client, and its absence on a
client holding a handle. -/
theorem C10_nil_connection_unsafe_witness :
    (New (fun _ => none) ([] : List (Except Err Nat)) none 0).connection
      = false ∧
    Client.Disconnect (New (fun _ => none) [] none 0)
      = Out.panic Panic.nilDeref ∧
    transmit [Op.Stop] (New (fun _ => none) [] none 0)
      = Out.panic Panic.nilDeref ∧
    Client.Disconnect wC10 ≠ Out.panic Panic.nilDeref := by
  obtain ⟨h1, h2, h3, h4⟩ :=
    C10_nil_connection_unsafe (fun _ => none) [] none 0
  exact ⟨h1, h2, h3 [Op.Stop] _ rfl, h4 wC10 rfl Panic.nilDeref⟩

end Sparki
